import Mathlib

/-!
Shallow embedding of the fx-service repository: a small HTTP service whose
components (request handlers, a ServeMux dispatch table, an HTTP server and
a PostgreSQL connection) are wired together and driven by an application
lifecycle manager.  Request and response bodies are modelled as lists of
byte values (`Nat`); the response writer models net/http semantics: the
first write commits the status code, later WriteHeader calls are
superfluous and ignored, and a write may fail after transferring only a
prefix of the bytes.
-/

namespace FxService

/-- Bytes of an ASCII string literal, one byte per character. -/
def strBytes (s : String) : List Nat := s.data.map Char.toNat

/-- An incoming request body: the successive chunks the body reader yields,
and an optional terminal read error (`none` means clean EOF). -/
structure Request where
  chunks : List (List Nat)
  readErr : Option String

/-- Model of a net/http ResponseWriter: the committed status (set by the
first write or by the first explicit WriteHeader), the bytes written so
far, and the remaining transport capacity (`none` means writes never fail;
`some c` means a write fails once it attempts more than `c` further bytes,
after transferring a prefix of them). -/
structure ResponseWriter where
  status : Option Nat
  body : List Nat
  cap : Option Nat

/-- WriteHeader: the first call commits the status; any later call is
superfluous and ignored (net/http semantics). -/
def rwWriteHeader (w : ResponseWriter) (code : Nat) : ResponseWriter :=
  match w.status with
  | some _ => w
  | none => { w with status := some code }

/-- Write: implicitly commits status 200 when no header was sent yet, then
transfers the bytes; on a transport failure only a prefix is transferred
and an error is returned. -/
def rwWrite (w : ResponseWriter) (bs : List Nat) : ResponseWriter × Option String :=
  let w1 := rwWriteHeader w 200
  match w1.cap with
  | none => ({ w1 with body := w1.body ++ bs }, none)
  | some c =>
    if bs.length ≤ c then
      ({ w1 with body := w1.body ++ bs, cap := some (c - bs.length) }, none)
    else
      ({ w1 with body := w1.body ++ bs.take c, cap := some 0 }, some "write error")

/-- http.Error: sets the status header and writes the message followed by a
newline; errors of that write are ignored. -/
def httpError (w : ResponseWriter) (msg : String) (code : Nat) : ResponseWriter :=
  (rwWrite (rwWriteHeader w code) (strBytes (msg ++ "\n"))).1

/-- A fresh response writer on a healthy (never failing) transport. -/
def freshWriter : ResponseWriter := ⟨none, [], none⟩

/-- The write loop of io.Copy: writes each chunk, stopping at the first
write error. -/
def ioCopyChunks (w : ResponseWriter) : List (List Nat) → ResponseWriter × Option String
  | [] => (w, none)
  | c :: rest =>
    match rwWrite w c with
    | (w1, some e) => (w1, some e)
    | (w1, none) => ioCopyChunks w1 rest

/-- io.Copy(w, r.Body): copies every chunk, then surfaces the body
reader's terminal error when there is one. -/
def ioCopy (w : ResponseWriter) (r : Request) : ResponseWriter × Option String :=
  match ioCopyChunks w r.chunks with
  | (w1, some e) => (w1, some e)
  | (w1, none) => (w1, r.readErr)

/-- io.ReadAll: the whole body together with the terminal read error. -/
def readAll (r : Request) : List Nat × Option String := (r.chunks.flatten, r.readErr)

/-- A pooled database handle as constructed by database/sql.Open: it only
records the connection string; no dialing happens at construction. -/
structure SqlDB where
  connStr : String

/-- EchoHandler (handlers source file): a logger tag and a non-owning
reference to the shared database handle. -/
structure EchoHandler where
  log : String
  db : Option SqlDB

/-- NewEchoHandler builds a new EchoHandler. -/
def NewEchoHandler (log : String) (db : Option SqlDB) : EchoHandler := ⟨log, db⟩

/-- EchoHandler.ServeHTTP: io.Copy the request body to the response; a copy
error is logged as a warning.  Returns the response writer and the emitted
log lines. -/
def echoServeHTTP (h : EchoHandler) (w : ResponseWriter) (r : Request) :
    ResponseWriter × List String :=
  match ioCopy w r with
  | (w1, some e) => (w1, [h.log ++ ": Failed to handle request: " ++ e])
  | (w1, none) => (w1, [])

/-- HelloHandler: a logger tag and a non-owning reference to the shared
database handle. -/
structure HelloHandler where
  log : String
  db : Option SqlDB

/-- NewHelloHandler builds a new HelloHandler. -/
def NewHelloHandler (log : String) (db : Option SqlDB) : HelloHandler := ⟨log, db⟩

/-- HelloHandler.ServeHTTP: read the whole body; on a read error reply 500
with a generic message; otherwise Fprintf the greeting; on a write error
call http.Error on the same writer. -/
def helloServeHTTP (h : HelloHandler) (w : ResponseWriter) (r : Request) :
    ResponseWriter × List String :=
  match readAll r with
  | (_, some e) =>
    (httpError w "Internal server error" 500,
      [h.log ++ ": Failed to read request: " ++ e])
  | (body, none) =>
    match rwWrite w (strBytes "Hello, " ++ body ++ strBytes "\n") with
    | (w1, some e) =>
      (httpError w1 "Internal server error" 500,
        [h.log ++ ": Failed to write response: " ++ e])
    | (w1, none) => (w1, [])

/-- A Route: an http.Handler together with the mux pattern it reports. -/
structure Route where
  pattern : String
  handler : ResponseWriter → Request → ResponseWriter × List String

/-- EchoHandler.Pattern reports "/echo". -/
def echoPattern : String := "/echo"

/-- HelloHandler.Pattern reports "/hello". -/
def helloPattern : String := "/hello"

/-- AsRoute(NewEchoHandler): the echo handler as a Route. -/
def echoRoute (h : EchoHandler) : Route := ⟨echoPattern, echoServeHTTP h⟩

/-- AsRoute(NewHelloHandler): the hello handler as a Route. -/
def helloRoute (h : HelloHandler) : Route := ⟨helloPattern, helloServeHTTP h⟩

/-- The dispatch table of a ServeMux: registered pattern/route pairs in
registration order. -/
abbrev ServeMux := List (String × Route)

/-- Message of the registration-conflict panic raised by ServeMux.Handle on
a duplicate pattern: it names the newly registered pattern and the already
registered pattern it conflicts with. -/
def conflictMsg (p q : String) : String :=
  "pattern " ++ p ++ " conflicts with pattern " ++ q

/-- ServeMux.Handle: registers the route under the given pattern; handing
it a pattern that is already registered raises the registration-conflict
panic, modelled as an error value carrying the conflict message. -/
def muxHandle (m : ServeMux) (p : String) (r : Route) : Except String ServeMux :=
  match m.find? (fun e => e.1 == p) with
  | some e => .error (conflictMsg p e.1)
  | none => .ok (m ++ [(p, r)])

/-- The registration loop of NewServeMux over the remaining routes: the
first conflict aborts the build. -/
def muxAddAll (m : ServeMux) : List Route → Except String ServeMux
  | [] => .ok m
  | r :: rest =>
    match muxHandle m r.pattern r with
    | .error e => .error e
    | .ok m2 => muxAddAll m2 rest

/-- NewServeMux (src/main.go): builds a mux and registers every route of
the routes group under its reported pattern. -/
def NewServeMux (routes : List Route) : Except String ServeMux :=
  muxAddAll [] routes

/-- An action of the HTTP server's lifecycle hooks. -/
inductive ServerOp
  | listenOn (addr : String)
  | shutdown

/-- The lifecycle hook NewHTTPServer registers. -/
structure ServerHook where
  onStart : ServerOp
  onStop : ServerOp

/-- The server value NewHTTPServer constructs. -/
structure HttpServer where
  addr : String
  handler : ServeMux

/-- NewHTTPServer (src/main.go): constructs the server value with the
literal address ":8080" and registers a start hook that listens on
srv.Addr and a stop hook that shuts the server down.  It takes no
configuration input. -/
def NewHTTPServer (mux : ServeMux) : HttpServer × ServerHook :=
  let srv : HttpServer := { addr := ":8080", handler := mux }
  (srv, { onStart := ServerOp.listenOn srv.addr, onStop := ServerOp.shutdown })

/-- TransportConfig (src/cmd/server.go): the configured listen port. -/
structure TransportConfig where
  Port : String

/-- ProvideTransportConfig (src/cmd/server.go): wraps the port flag value
into a TransportConfig. -/
def ProvideTransportConfig (fPort : String) : TransportConfig := ⟨fPort⟩

/-- The listen address a configured port denotes. -/
def addrOfConfig (c : TransportConfig) : String := ":" ++ c.Port

/-- DbConfig (src/cmd/server.go): the assembled connection string. -/
structure DbConfig where
  PostgresConnString : String

/-- os.Getenv: the value of the variable, or the empty string when it is
absent from the environment. -/
def getenv (env : List (String × String)) (k : String) : String :=
  match env.find? (fun e => e.1 == k) with
  | some e => e.2
  | none => ""

/-- ProvideDbConfig (src/cmd/server.go): interpolates the five database
values into the connection string; no validation is performed. -/
def ProvideDbConfig (u p d h po : String) : DbConfig :=
  ⟨"user=" ++ u ++ " password=" ++ p ++ " dbname=" ++ d ++ " host=" ++ h ++
    " port=" ++ po ++ " sslmode=disable"⟩

/-- ProvideDbConfig as wired through the flag defaults: each flag defaults
to the corresponding environment variable, which is empty when absent. -/
def dbConfigFromEnv (env : List (String × String)) : DbConfig :=
  ProvideDbConfig (getenv env "DB_USERNAME") (getenv env "DB_PASSWORD")
    (getenv env "DB_NAME") (getenv env "DB_HOSTNAME") (getenv env "DB_PORT")

/-- The SQL drivers registered at init time; the blank import of lib/pq
registers "postgres". -/
def registeredDrivers : List String := ["postgres"]

/-- database/sql.Open: checks the driver name against the registry and
constructs the pooled handle without any network I/O; it fails only for an
unregistered driver name. -/
def sqlOpen (name dsn : String) : Except String SqlDB :=
  if registeredDrivers.contains name then .ok ⟨dsn⟩
  else .error ("sql: unknown driver " ++ name)

/-- An action of the database component's lifecycle hooks. -/
inductive DbOp
  | ping (db : SqlDB)
  | closePool (db : SqlDB)

/-- The lifecycle hook NewPostgresConnection registers. -/
structure DbHook where
  onStart : DbOp
  onStop : DbOp

/-- NewPostgresConnection (src/main.go): opens the pooled handle with the
hard-coded connection string and registers a ping start hook and a close
stop hook; the error branch mirrors the source's err check after
sql.Open. -/
def NewPostgresConnection : Except String (SqlDB × DbHook) :=
  match sqlOpen "postgres" "user=username dbname=mydb sslmode=disable" with
  | .error e => .error e
  | .ok db => .ok (db, ⟨DbOp.ping db, DbOp.closePool db⟩)

/-- Modelled from the spec: a hook of the Lifecycle Manager (realized by
go.uber.org/fx, which is not part of this repository's sources): a start
action and a stop action, each either succeeding or failing. -/
structure Hook where
  startErr : Option String
  stopErr : Option String

/-- An executed lifecycle action: the start or the stop action of the hook
registered at the given index. -/
inductive Event
  | start (i : Nat)
  | stop (i : Nat)

/-- Modelled from the spec: the run loop of the Lifecycle Manager over the
hooks not yet started; `i` is the absolute index of the next hook and
`started` lists the indices already started, most recent first.  Start
actions run in registration order; the first start failure halts the run
and the already started hooks' stop actions run in reverse order, ignoring
individual stop failures; on full success every stop action runs in
reverse order after the termination signal. -/
def runAux : List Hook → Nat → List Nat → List Event × Option String
  | [], _, started => (started.map Event.stop, none)
  | h :: rest, i, started =>
    match h.startErr with
    | some e => (Event.start i :: started.map Event.stop, some e)
    | none =>
      let p := runAux rest (i + 1) (i :: started)
      (Event.start i :: p.1, p.2)

/-- Modelled from the spec: run() of the Lifecycle Manager, yielding the
executed actions in order and the start failure reported to the caller
(`none` on a fully successful run). -/
def appRun (hooks : List Hook) : List Event × Option String := runAux hooks 0 []

/-- On a never-failing transport, the io.Copy write loop transfers every
chunk, appending their concatenation to the body, and reports no error. -/
theorem ioCopyChunks_unbounded (chunks : List (List Nat)) :
    ∀ (st : Option Nat) (bd : List Nat),
    (ioCopyChunks ⟨st, bd, none⟩ chunks).1.body = bd ++ chunks.flatten ∧
    (ioCopyChunks ⟨st, bd, none⟩ chunks).1.cap = none ∧
    (ioCopyChunks ⟨st, bd, none⟩ chunks).2 = none := by
  induction chunks with
  | nil => intro st bd; simp [ioCopyChunks]
  | cons c rest ih =>
    intro st bd
    cases st with
    | none =>
      have h := ih (some 200) (bd ++ c)
      simpa [ioCopyChunks, rwWrite, rwWriteHeader, List.append_assoc] using h
    | some s =>
      have h := ih (some s) (bd ++ c)
      simpa [ioCopyChunks, rwWrite, rwWriteHeader, List.append_assoc] using h

/-- The registration loop, handed a mux whose keys are distinct, fails with
the registration-conflict message of a duplicated pattern whenever the
combined key/pattern list contains a duplicate, and that pattern occurs at
least twice in the combined list. -/
theorem muxAddAll_dup (routes : List Route) :
    ∀ (m : ServeMux), (m.map Prod.fst).Nodup →
    ¬ (m.map Prod.fst ++ routes.map Route.pattern).Nodup →
    ∃ p, muxAddAll m routes = .error (conflictMsg p p) ∧
      2 ≤ (m.map Prod.fst ++ routes.map Route.pattern).count p := by
  induction routes with
  | nil =>
    intro m hnd hdup
    exact absurd hnd (by simpa using hdup)
  | cons r rest ih =>
    intro m hnd hdup
    cases hfind : m.find? (fun e => e.1 == r.pattern) with
    | some e =>
      have hpe : e.1 = r.pattern := by
        have h := List.find?_some hfind
        simpa using h
      have hmem : e ∈ m := List.mem_of_find?_eq_some hfind
      have hkey : r.pattern ∈ m.map Prod.fst := by
        rw [← hpe]
        exact List.mem_map_of_mem Prod.fst hmem
      refine ⟨r.pattern, ?_, ?_⟩
      · simp [muxAddAll, muxHandle, hfind, hpe]
      · have h1 : 0 < (m.map Prod.fst).count r.pattern :=
          List.count_pos_iff.mpr hkey
        rw [List.count_append, List.map_cons, List.count_cons_self]
        omega
    | none =>
      have hnot : r.pattern ∉ m.map Prod.fst := by
        intro hmem
        obtain ⟨e, hem, hpe⟩ := List.mem_map.mp hmem
        have h := List.find?_eq_none.mp hfind e hem
        simp [hpe] at h
      have hm2keys : ((m ++ [(r.pattern, r)]).map Prod.fst) =
          m.map Prod.fst ++ [r.pattern] := by simp
      have hre : m.map Prod.fst ++ (r :: rest).map Route.pattern =
          ((m ++ [(r.pattern, r)]).map Prod.fst) ++ rest.map Route.pattern := by
        rw [hm2keys, List.map_cons]
        exact List.append_cons (m.map Prod.fst) r.pattern (rest.map Route.pattern)
      have hnd2 : ((m ++ [(r.pattern, r)]).map Prod.fst).Nodup := by
        rw [hm2keys]
        refine List.Nodup.append hnd (List.nodup_singleton r.pattern) ?_
        intro x hx hx2
        rw [List.mem_singleton] at hx2
        exact hnot (hx2 ▸ hx)
      have hdup2 :
          ¬ (((m ++ [(r.pattern, r)]).map Prod.fst) ++ rest.map Route.pattern).Nodup := by
        rw [← hre]; exact hdup
      obtain ⟨q, herr, hcount⟩ := ih (m ++ [(r.pattern, r)]) hnd2 hdup2
      refine ⟨q, ?_, ?_⟩
      · simpa [muxAddAll, muxHandle, hfind] using herr
      · rw [hre]; exact hcount

/-- The lifecycle run loop, when the hook at relative position n is the
first whose start action fails: the executed actions are the starts of the
first n+1 hooks in order followed by the stops of the first n hooks in
reverse, prepended to the stops of the previously started indices, and the
reported error is the failing start's. -/
theorem runAux_first_fail :
    ∀ (hooks : List Hook) (n : Nat) (hk : Hook) (e : String) (i : Nat) (s : List Nat),
    hooks[n]? = some hk → hk.startErr = some e →
    (∀ x ∈ hooks.take n, x.startErr = none) →
    runAux hooks i s =
      ((List.range' i (n + 1)).map Event.start ++
        ((List.range' i n).reverse ++ s).map Event.stop, some e) := by
  intro hooks
  induction hooks with
  | nil => intro n hk e i s hget _ _; simp at hget
  | cons h rest ih =>
    intro n hk e i s hget hfail hok
    cases n with
    | zero =>
      have hhk : h = hk := by simpa using hget
      subst hhk
      have hr1 : List.range' i 1 = [i] := rfl
      simp [runAux, hfail, hr1]
    | succ m =>
      have hget2 : rest[m]? = some hk := by simpa using hget
      have hh : h.startErr = none := hok h (by simp)
      have hok2 : ∀ x ∈ rest.take m, x.startErr = none := by
        intro x hx
        exact hok x (by simp [List.take_succ_cons, hx])
      have ih2 := ih m hk e (i + 1) (i :: s) hget2 hfail hok2
      have hr2 : List.range' i (m + 2) = i :: List.range' (i + 1) (m + 1) := rfl
      have hr1 : List.range' i (m + 1) = i :: List.range' (i + 1) m := rfl
      simp [runAux, hh, ih2, hr2, hr1, List.reverse_cons, List.map_append,
        List.append_assoc]

/-- The lifecycle run loop when every start action succeeds: the executed
actions are all starts in order followed by all stops in reverse, prepended
to the stops of the previously started indices, with no reported error. -/
theorem runAux_all_ok :
    ∀ (hooks : List Hook) (i : Nat) (s : List Nat),
    (∀ x ∈ hooks, x.startErr = none) →
    runAux hooks i s =
      ((List.range' i hooks.length).map Event.start ++
        ((List.range' i hooks.length).reverse ++ s).map Event.stop, none) := by
  intro hooks
  induction hooks with
  | nil => intro i s _; simp [runAux]
  | cons h rest ih =>
    intro i s hok
    have hh : h.startErr = none := hok h (by simp)
    have ih2 := ih (i + 1) (i :: s) (fun x hx => hok x (by simp [hx]))
    have hr : List.range' i (rest.length + 1) = i :: List.range' (i + 1) rest.length := rfl
    simp [runAux, hh, ih2, hr, List.reverse_cons, List.map_append, List.append_assoc]

/-- C1: for any collection of routes containing two routes that report the
same pattern, NewServeMux fails at build time with the registration
conflict error, whose message names the duplicated pattern for both
competing routes (the pattern occurs at least twice in the collection). -/
theorem duplicate_pattern_build_error (routes : List Route)
    (hdup : ¬ (routes.map Route.pattern).Nodup) :
    ∃ p, NewServeMux routes = .error (conflictMsg p p) ∧
      2 ≤ (routes.map Route.pattern).count p := by
  have h := muxAddAll_dup routes [] (by simp) (by simpa using hdup)
  simpa [NewServeMux] using h

/-- C1 witness: two routes both reporting "/echo" make the build fail with
the conflict error naming the pattern twice. -/
theorem duplicate_pattern_build_error_witness :
    ∃ p, NewServeMux [echoRoute (NewEchoHandler "a" none),
        echoRoute (NewEchoHandler "b" none)] = .error (conflictMsg p p) ∧
      2 ≤ (([echoRoute (NewEchoHandler "a" none),
        echoRoute (NewEchoHandler "b" none)]).map Route.pattern).count p :=
  duplicate_pattern_build_error _ (by decide)

/-- C2: if the start action of the hook at index n is the first to fail,
the lifecycle executes the starts of hooks 0..n in order, then the stop
actions of exactly the hooks 0..n-1 in reverse registration order
(regardless of their stop actions' own failures), and reports the n-th
start failure as the cause. -/
theorem lifecycle_first_fail (hooks : List Hook) (n : Nat) (hk : Hook) (e : String)
    (hget : hooks[n]? = some hk) (hfail : hk.startErr = some e)
    (hok : ∀ x ∈ hooks.take n, x.startErr = none) :
    appRun hooks =
      ((List.range (n + 1)).map Event.start ++
        (List.range n).reverse.map Event.stop, some e) := by
  have h := runAux_first_fail hooks n hk e 0 [] hget hfail hok
  simpa [appRun, List.range_eq_range'] using h

/-- C2 witness: with three hooks whose second start action fails (and whose
first hook has a failing stop action), the run starts hooks 0 and 1, stops
exactly hook 0, and reports the second start failure. -/
theorem lifecycle_first_fail_witness :
    appRun [⟨none, some "stopfail"⟩, ⟨some "boom", none⟩, ⟨none, none⟩] =
      ([Event.start 0, Event.start 1, Event.stop 0], some "boom") := by
  have h := lifecycle_first_fail
    [⟨none, some "stopfail"⟩, ⟨some "boom", none⟩, ⟨none, none⟩]
    1 ⟨some "boom", none⟩ "boom" rfl rfl (by decide)
  rw [h]; rfl

/-- C3: for every hook sequence whose start actions all succeed, the run
executes the start actions in exact registration order and then the stop
actions in the exact reverse order, reporting no error. -/
theorem lifecycle_order (hooks : List Hook)
    (hok : ∀ x ∈ hooks, x.startErr = none) :
    appRun hooks =
      ((List.range hooks.length).map Event.start ++
        (List.range hooks.length).reverse.map Event.stop, none) := by
  have h := runAux_all_ok hooks 0 [] hok
  simpa [appRun, List.range_eq_range'] using h

/-- C3 witness: two succeeding hooks start in order 0, 1 and stop in order
1, 0. -/
theorem lifecycle_order_witness :
    appRun [⟨none, none⟩, ⟨none, some "stopfail"⟩] =
      ([Event.start 0, Event.start 1, Event.stop 1, Event.stop 0], none) := by
  have h := lifecycle_order [⟨none, none⟩, ⟨none, some "stopfail"⟩] (by decide)
  rw [h]; rfl

/-- C5: for every request body that reads to EOF without error, the echo
handler's response body equals the request body byte for byte. -/
theorem echo_body_roundtrip (h : EchoHandler) (r : Request)
    (hre : r.readErr = none) :
    (echoServeHTTP h freshWriter r).1.body = r.chunks.flatten := by
  have hu := ioCopyChunks_unbounded r.chunks none []
  rcases hio : ioCopyChunks ⟨none, [], none⟩ r.chunks with ⟨w1, err⟩
  rw [hio] at hu
  obtain ⟨hbody, hcap, herr⟩ := hu
  simp only at herr
  subst herr
  simpa [echoServeHTTP, ioCopy, freshWriter, hio, hre] using hbody

/-- C5 witness: echoing the body "abc123" (read in two chunks) yields
exactly the bytes of "abc123". -/
theorem echo_body_roundtrip_witness :
    (echoServeHTTP (NewEchoHandler "log" none) freshWriter
      ⟨[strBytes "abc", strBytes "123"], none⟩).1.body = strBytes "abc123" := by
  have h := echo_body_roundtrip (NewEchoHandler "log" none)
    ⟨[strBytes "abc", strBytes "123"], none⟩ rfl
  rw [h]; rfl

/-- C6: for every request body that reads without error, the hello handler
on a healthy transport produces exactly the bytes of "Hello, " followed by
the body followed by a newline, with status 200, and nothing else. -/
theorem hello_greeting (h : HelloHandler) (r : Request)
    (hre : r.readErr = none) :
    (helloServeHTTP h freshWriter r).1.body =
      strBytes "Hello, " ++ r.chunks.flatten ++ strBytes "\n" ∧
    (helloServeHTTP h freshWriter r).1.status = some 200 := by
  constructor <;>
    simp [helloServeHTTP, readAll, hre, rwWrite, rwWriteHeader, freshWriter]

/-- C6 witness: body "World" produces exactly the bytes of
"Hello, World\n" with status 200. -/
theorem hello_greeting_witness :
    (helloServeHTTP (NewHelloHandler "log" none) freshWriter
      ⟨[strBytes "World"], none⟩).1.body = strBytes "Hello, World\n" ∧
    (helloServeHTTP (NewHelloHandler "log" none) freshWriter
      ⟨[strBytes "World"], none⟩).1.status = some 200 := by
  have h := hello_greeting (NewHelloHandler "log" none)
    ⟨[strBytes "World"], none⟩ rfl
  exact ⟨by rw [h.1]; rfl, h.2⟩

/-- C7 counterexample: when the greeting write fails after transferring
three bytes, the response status is the already committed 200 (not 500),
and the response body consists of the partial greeting bytes "Hel" rather
than a generic error message: WriteHeader(500) after the failed write is
superfluous and the error text cannot be transferred either. -/
theorem hello_write_fail_cex :
    (helloServeHTTP (NewHelloHandler "log" none) ⟨none, [], some 3⟩
      ⟨[strBytes "World"], none⟩).1.status = some 200 ∧
    (helloServeHTTP (NewHelloHandler "log" none) ⟨none, [], some 3⟩
      ⟨[strBytes "World"], none⟩).1.body = strBytes "Hel" ∧
    strBytes "Hel" ≠ strBytes "Internal server error\n" ∧
    strBytes "Hel" ≠ [] := by
  refine ⟨?_, ?_, by decide, by decide⟩ <;> rfl

/-- C7 (amended): for every POST /hello request whose body read fails, the
response has status 500 and its body is exactly the generic error message,
with no greeting text; when instead the response write fails, the handler
attempts http.Error but the status is already committed as 200 by the
failed write and partial greeting bytes may remain in the response. -/
theorem hello_read_fail (h : HelloHandler) (r : Request) (e : String)
    (hre : r.readErr = some e) :
    (helloServeHTTP h freshWriter r).1.status = some 500 ∧
    (helloServeHTTP h freshWriter r).1.body =
      strBytes "Internal server error\n" := by
  constructor <;>
    simp [helloServeHTTP, readAll, hre, httpError, rwWrite, rwWriteHeader,
      freshWriter, strBytes]

/-- C7 witness: a request whose read fails with "boom" yields status 500
and exactly the generic error body. -/
theorem hello_read_fail_witness :
    (helloServeHTTP (NewHelloHandler "log" none) freshWriter
      ⟨[strBytes "Wo"], some "boom"⟩).1.status = some 500 ∧
    (helloServeHTTP (NewHelloHandler "log" none) freshWriter
      ⟨[strBytes "Wo"], some "boom"⟩).1.body =
      strBytes "Internal server error\n" :=
  hello_read_fail (NewHelloHandler "log" none) ⟨[strBytes "Wo"], some "boom"⟩
    "boom" rfl

/-- C4 counterexample: with the listen port configured as "9090" the built
server's address is still the fixed ":8080", so the listen address is not
taken from the configuration. -/
theorem server_addr_ignores_config_cex :
    (NewHTTPServer []).1.addr = ":8080" ∧
    addrOfConfig (ProvideTransportConfig "9090") ≠ (NewHTTPServer []).1.addr :=
  ⟨rfl, by decide⟩

/-- C4 (amended): NewHTTPServer constructs, for every dispatch table, a
server whose listen address is the constant ":8080", with a start hook that
listens on that same fixed address and a stop hook that shuts down; the
configured listen port is not consulted. -/
theorem server_addr_fixed (mux : ServeMux) :
    (NewHTTPServer mux).1.addr = ":8080" ∧
    (NewHTTPServer mux).2.onStart = ServerOp.listenOn ":8080" ∧
    (NewHTTPServer mux).2.onStop = ServerOp.shutdown :=
  ⟨rfl, rfl, rfl⟩

/-- C8: opening the database handle is lazy and cannot fail: for every
connection string, sql.Open with the registered "postgres" driver returns
the handle immediately with no error, and NewPostgresConnection returns the
handle together with a hook whose start action is the connectivity ping and
whose stop action closes the pool. -/
theorem postgres_open_no_fail :
    (∀ dsn, sqlOpen "postgres" dsn = .ok ⟨dsn⟩) ∧
    NewPostgresConnection =
      .ok (⟨"user=username dbname=mydb sslmode=disable"⟩,
        ⟨DbOp.ping ⟨"user=username dbname=mydb sslmode=disable"⟩,
          DbOp.closePool ⟨"user=username dbname=mydb sslmode=disable"⟩⟩) :=
  ⟨fun _ => rfl, rfl⟩

/-- C9 counterexample: with every required value absent from the
environment, configuration loading produces no error at all: it silently
builds the connection string with empty credentials, and the lazy open then
proceeds with that string. -/
theorem missing_config_silent_cex :
    dbConfigFromEnv [] =
      ⟨"user= password= dbname= host= port= sslmode=disable"⟩ ∧
    sqlOpen "postgres" (dbConfigFromEnv []).PostgresConnString =
      .ok ⟨"user= password= dbname= host= port= sslmode=disable"⟩ :=
  ⟨rfl, rfl⟩

/-- C9 (amended): absent required values do not produce a startup error:
for every environment, the flags default to the (possibly empty)
environment values, ProvideDbConfig interpolates them into the connection
string unchecked, and sql.Open succeeds on that string; a connectivity
failure would surface only at the start-phase ping. -/
theorem missing_config_proceeds (env : List (String × String)) :
    sqlOpen "postgres" (dbConfigFromEnv env).PostgresConnString =
      .ok ⟨(dbConfigFromEnv env).PostgresConnString⟩ := rfl

/-- C10: the responses of the echo handler and of the hello handler do not
depend on the database handle the handlers were constructed with (including
the nil handle): for any two handle values and any request and writer, the
results are identical. -/
theorem handlers_ignore_db (log : String) (db1 db2 : Option SqlDB)
    (w : ResponseWriter) (r : Request) :
    echoServeHTTP (NewEchoHandler log db1) w r =
      echoServeHTTP (NewEchoHandler log db2) w r ∧
    helloServeHTTP (NewHelloHandler log db1) w r =
      helloServeHTTP (NewHelloHandler log db2) w r :=
  ⟨rfl, rfl⟩

end FxService
